import Mathlib

/-!
Shallow embedding of `meilisearch-http/src/error.rs`: the error classification
and code-mapping layer. Leaf error values from external collaborators
(actix-web transport errors, serde_json deserialization errors, the scheduler,
the blob store, the document-format parser, tokio join errors) are embedded as
inductive types carrying exactly the structure the source inspects; opaque
payloads the source never looks into are embedded as opaque identifiers.
The source's `error_code` functions return `Code`; the arms that are `todo!()`
in the source (runtime faults) are embedded as `Option Code` returning `none`.
-/

namespace MeiliHttp

/-- `meilisearch_types::error::Code`: the closed enumeration of symbolic
protocol error codes (members produced in this file). -/
inductive Code where
  | MissingContentType
  | InvalidContentType
  | PayloadTooLarge
  | UnsupportedMediaType
  | BadRequest
  | Internal
  | MissingPayload
  | MalformedPayload
deriving DecidableEq, Repr

/-- `serde_json::error::Category`: the classification of a serde_json error.
Constructors correspond, in order, to the source's `Category::{Io, Syntax,
Data, Eof}`. -/
inductive Category where
  | ioFault
  | syntaxFault
  | dataFault
  | eofFault
deriving DecidableEq, Repr

/-- `serde_json::error::Error`: the structured-body deserialization failure
diagnostic, carrying exactly the metadata the source inspects via
`classify()`, `line()` and `column()`. -/
structure SerdeJsonError where
  category : Category
  line : Nat
  column : Nat
deriving DecidableEq, Repr

/-- `serde_json::Error::classify()`. -/
def SerdeJsonError.classify (e : SerdeJsonError) : Category := e.category

/-- `actix_web::error::PayloadError`: the transport-layer body error and its
six sub-cases. The payloads the source never inspects (the optional io error
of `Incomplete`, the h2 error of `Http2Payload`, the io error of `Io`) are
embedded as opaque natural-number identifiers. `IoFailure` embeds the
source's `Io` sub-case. -/
inductive AwebPayloadError where
  | Incomplete (ioErr : Option Nat)
  | EncodingCorrupted
  | Overflow
  | UnknownLength
  | Http2Payload (h2Err : Nat)
  | IoFailure (ioErr : Nat)
deriving DecidableEq, Repr

/-- `actix_web::error::JsonPayloadError`: the structured-body error.
`Overflow` carries the configured limit (the source matches it with `{ .. }`
and never reads the field). -/
inductive JsonPayloadError where
  | Overflow (limit : Nat)
  | ContentType
  | Payload (e : AwebPayloadError)
  | Deserialize (e : SerdeJsonError)
  | Serialize (e : SerdeJsonError)
deriving DecidableEq, Repr

/-- `actix_web::error::QueryPayloadError`: the query-string error. `Other`
embeds the non-exhaustive remainder the source matches with a wildcard arm. -/
inductive QueryPayloadError where
  | Deserialize (msg : String)
  | Other
deriving DecidableEq, Repr

/-- `index_scheduler::Error`, embedded opaquely: the scheduler owns its own
code mapping, so the embedding carries the code its own `error_code` reports.
Modelled from the spec: the scheduler crate is outside the source under
study; the spec describes its errors as opaque values exposing their own
symbolic code. -/
structure IndexSchedulerError where
  code : Code
deriving DecidableEq, Repr

/-- `index_scheduler::Error::error_code`: the scheduler's own code mapping,
opaque to this layer. -/
def IndexSchedulerError.error_code (e : IndexSchedulerError) : Code := e.code

/-- `document_formats::DocumentFormatError`, embedded opaquely: the format
parser owns its own code mapping. Modelled from the spec: the
document-formats crate is outside the source under study; the spec describes
its errors as opaque values exposing their own symbolic code. -/
structure DocumentFormatError where
  code : Code
deriving DecidableEq, Repr

/-- `DocumentFormatError::error_code`: the format parser's own code mapping,
opaque to this layer. -/
def DocumentFormatError.error_code (e : DocumentFormatError) : Code := e.code

/-- `file_store::Error`, embedded opaquely: the source maps every blob-store
error to `Internal` without inspecting it. -/
structure FileStoreError where
  tag : Nat
deriving DecidableEq, Repr

/-- `tokio::task::JoinError`, embedded opaquely: the source maps every join
failure to `Internal` without inspecting it. -/
structure JoinError where
  tag : Nat
deriving DecidableEq, Repr

/-- `PayloadError` (this layer's payload sub-taxonomy), with its five
variants exactly as in the source. -/
inductive PayloadError where
  | Payload (e : AwebPayloadError)
  | Json (e : JsonPayloadError)
  | Query (e : QueryPayloadError)
  | MalformedPayload (e : SerdeJsonError)
  | MissingPayload
deriving DecidableEq, Repr

/-- `MeilisearchHttpError`: the unifying top-level error wrapper, with its
seven variants exactly as in the source. -/
inductive MeilisearchHttpError where
  | MissingContentType (accepted : List String)
  | InvalidContentType (ct : String) (accepted : List String)
  | IndexScheduler (e : IndexSchedulerError)
  | Payload (e : PayloadError)
  | FileStore (e : FileStoreError)
  | DocumentFormat (e : DocumentFormatError)
  | Join (e : JoinError)
deriving DecidableEq, Repr

/-- `impl ErrorCode for PayloadError`: the payload code mapping. Every arm of
the source's `PayloadError::Payload` inner match (all six transport sub-cases
and the wildcard) is `todo!()` — a runtime fault — embedded here as `none`;
every arm that returns a code in the source returns `some` of that code. -/
def PayloadError.error_code : PayloadError → Option Code
  | PayloadError.Payload e =>
    match e with
    | AwebPayloadError.Incomplete _ => none
    | AwebPayloadError.EncodingCorrupted => none
    | AwebPayloadError.Overflow => none
    | AwebPayloadError.UnknownLength => none
    | AwebPayloadError.Http2Payload _ => none
    | AwebPayloadError.IoFailure _ => none
  | PayloadError.Json err =>
    match err with
    | JsonPayloadError.Overflow _ => some Code.PayloadTooLarge
    | JsonPayloadError.ContentType => some Code.UnsupportedMediaType
    | JsonPayloadError.Payload AwebPayloadError.Overflow => some Code.PayloadTooLarge
    | JsonPayloadError.Payload _ => some Code.BadRequest
    | JsonPayloadError.Deserialize _ => some Code.BadRequest
    | JsonPayloadError.Serialize _ => some Code.Internal
  | PayloadError.Query err =>
    match err with
    | QueryPayloadError.Deserialize _ => some Code.BadRequest
    | QueryPayloadError.Other => some Code.Internal
  | PayloadError.MissingPayload => some Code.MissingPayload
  | PayloadError.MalformedPayload _ => some Code.MalformedPayload

/-- `impl ErrorCode for MeilisearchHttpError`: the top-level code mapping,
delegating to the scheduler's, the payload layer's and the format parser's
own mappings where the source does. A `none` from the payload layer (a
`todo!()` fault in the source) propagates, as a panic would. -/
def MeilisearchHttpError.error_code : MeilisearchHttpError → Option Code
  | MeilisearchHttpError.MissingContentType _ => some Code.MissingContentType
  | MeilisearchHttpError.InvalidContentType _ _ => some Code.InvalidContentType
  | MeilisearchHttpError.IndexScheduler e => some (IndexSchedulerError.error_code e)
  | MeilisearchHttpError.Payload e => PayloadError.error_code e
  | MeilisearchHttpError.FileStore _ => some Code.Internal
  | MeilisearchHttpError.DocumentFormat e => some (DocumentFormatError.error_code e)
  | MeilisearchHttpError.Join _ => some Code.Internal

/-- `impl From<aweb::error::PayloadError> for MeilisearchHttpError`: a direct
wrap of the transport error into `Payload (PayloadError.Payload _)`. -/
def MeilisearchHttpError.fromAwebPayload (error : AwebPayloadError) : MeilisearchHttpError :=
  MeilisearchHttpError.Payload (PayloadError.Payload error)

/-- `impl From<JsonPayloadError> for PayloadError`: the payload
disambiguation algorithm. The source's two guarded `Deserialize` arms are
embedded as the two conditionals, and the final wildcard arm as the
fall-through `Json` wrap. -/
def PayloadError.fromJson (other : JsonPayloadError) : PayloadError :=
  match other with
  | JsonPayloadError.Deserialize e =>
    if e.classify = Category.eofFault ∧ e.line = 1 ∧ e.column = 0 then
      PayloadError.MissingPayload
    else if e.classify ≠ Category.dataFault then
      PayloadError.MalformedPayload e
    else
      PayloadError.Json other
  | _ => PayloadError.Json other

/-- `impl From<QueryPayloadError> for PayloadError`: a direct wrap. -/
def PayloadError.fromQuery (other : QueryPayloadError) : PayloadError :=
  PayloadError.Query other

/-- C1: the claim says `error_code` returns exactly one `ErrorCode` without
faulting for every constructible leaf shape, including the six transport
sub-cases wrapped as `PayloadError.Payload`. The source instead has `todo!()`
on every transport sub-case, so mapping any directly wrapped transport error
faults at runtime — embedded here as `none` for every such value. -/
theorem C1_transport_subcases_fault :
    ∀ e : AwebPayloadError,
      PayloadError.error_code (PayloadError.Payload e) = none := by
  intro e
  cases e <;> rfl

/-- C2: a structured-body deserialization failure classified as unexpected
end of input at line 1, column 0 converts to `MissingPayload`, which maps to
`Code.MissingPayload`. -/
theorem C2_eof_at_origin_is_missing_payload (e : SerdeJsonError)
    (h : e.classify = Category.eofFault ∧ e.line = 1 ∧ e.column = 0) :
    PayloadError.fromJson (JsonPayloadError.Deserialize e) = PayloadError.MissingPayload ∧
    PayloadError.error_code (PayloadError.fromJson (JsonPayloadError.Deserialize e)) =
      some Code.MissingPayload := by
  have hbranch : PayloadError.fromJson (JsonPayloadError.Deserialize e) =
      PayloadError.MissingPayload := by
    simp only [PayloadError.fromJson]
    rw [if_pos h]
  exact ⟨hbranch, by rw [hbranch]; rfl⟩

/-- C2 witness: the empty-body signature, eof at (1, 0), concretely yields
`MissingPayload` and code `MissingPayload`. -/
theorem C2_witness :
    (SerdeJsonError.classify ⟨Category.eofFault, 1, 0⟩ = Category.eofFault ∧
      SerdeJsonError.line ⟨Category.eofFault, 1, 0⟩ = 1 ∧
      SerdeJsonError.column ⟨Category.eofFault, 1, 0⟩ = 0) ∧
    PayloadError.fromJson (JsonPayloadError.Deserialize ⟨Category.eofFault, 1, 0⟩) =
      PayloadError.MissingPayload ∧
    PayloadError.error_code
        (PayloadError.fromJson (JsonPayloadError.Deserialize ⟨Category.eofFault, 1, 0⟩)) =
      some Code.MissingPayload :=
  ⟨by decide, C2_eof_at_origin_is_missing_payload ⟨Category.eofFault, 1, 0⟩ (by decide)⟩

/-- C3: a structured-body deserialization failure not matching the empty-body
signature converts to `MalformedPayload` retaining the diagnostic (mapping to
`Code.MalformedPayload`) when its category is not data-shape, and otherwise
to the generic `Json` wrap retaining the leaf error unchanged. -/
theorem C3_disambiguation_of_nonempty_body (e : SerdeJsonError)
    (h : ¬(e.classify = Category.eofFault ∧ e.line = 1 ∧ e.column = 0)) :
    (e.classify ≠ Category.dataFault →
      PayloadError.fromJson (JsonPayloadError.Deserialize e) =
        PayloadError.MalformedPayload e ∧
      PayloadError.error_code (PayloadError.MalformedPayload e) =
        some Code.MalformedPayload) ∧
    (e.classify = Category.dataFault →
      PayloadError.fromJson (JsonPayloadError.Deserialize e) =
        PayloadError.Json (JsonPayloadError.Deserialize e)) := by
  constructor
  · intro hnd
    refine ⟨?_, rfl⟩
    simp only [PayloadError.fromJson]
    rw [if_neg h, if_pos hnd]
  · intro hd
    simp only [PayloadError.fromJson]
    rw [if_neg h, if_neg (by simp [hd])]

/-- C3 witness: a syntax-category failure at (1, 7) concretely yields
`MalformedPayload` with its diagnostic retained, mapping to
`Code.MalformedPayload`. -/
theorem C3_witness :
    ¬(SerdeJsonError.classify ⟨Category.syntaxFault, 1, 7⟩ = Category.eofFault ∧
        SerdeJsonError.line ⟨Category.syntaxFault, 1, 7⟩ = 1 ∧
        SerdeJsonError.column ⟨Category.syntaxFault, 1, 7⟩ = 0) ∧
    PayloadError.fromJson (JsonPayloadError.Deserialize ⟨Category.syntaxFault, 1, 7⟩) =
      PayloadError.MalformedPayload ⟨Category.syntaxFault, 1, 7⟩ ∧
    PayloadError.error_code (PayloadError.MalformedPayload ⟨Category.syntaxFault, 1, 7⟩) =
      some Code.MalformedPayload :=
  ⟨by decide,
    (C3_disambiguation_of_nonempty_body ⟨Category.syntaxFault, 1, 7⟩ (by decide)).1 (by decide)⟩

/-- C4: mapping a wrapped scheduler error and mapping a wrapped
document-format error each yield exactly the code the wrapped error's own
`error_code` produces — the wrapper forwards it unchanged. -/
theorem C4_delegation_transparency (s : IndexSchedulerError) (d : DocumentFormatError) :
    MeilisearchHttpError.error_code (MeilisearchHttpError.IndexScheduler s) =
      some (IndexSchedulerError.error_code s) ∧
    MeilisearchHttpError.error_code (MeilisearchHttpError.DocumentFormat d) =
      some (DocumentFormatError.error_code d) :=
  ⟨rfl, rfl⟩

/-- C5: the claim says every size-overflow failure maps to `PayloadTooLarge`.
The structured-body overflow and the transport overflow nested inside the
structured-body error do; but a direct transport-layer overflow hits a
`todo!()` in the source and faults at runtime instead of producing
`PayloadTooLarge` — embedded here as `none`. -/
theorem C5_overflow_mapping :
    PayloadError.error_code (PayloadError.Json (JsonPayloadError.Overflow 100)) =
      some Code.PayloadTooLarge ∧
    PayloadError.error_code
        (PayloadError.Json (JsonPayloadError.Payload AwebPayloadError.Overflow)) =
      some Code.PayloadTooLarge ∧
    PayloadError.error_code (PayloadError.Payload AwebPayloadError.Overflow) = none :=
  ⟨rfl, rfl, rfl⟩

/-- C6: absence of a Content-Type header — the `MissingContentType` variant,
with any acceptable-type list, including the empty one — always maps to
`Code.MissingContentType` and never to `Code.InvalidContentType`; a present
but unacceptable header — the `InvalidContentType` variant — maps to
`Code.InvalidContentType`. -/
theorem C6_content_type_precedence (accepted : List String) (ct : String) :
    MeilisearchHttpError.error_code (MeilisearchHttpError.MissingContentType accepted) =
      some Code.MissingContentType ∧
    MeilisearchHttpError.error_code (MeilisearchHttpError.MissingContentType []) =
      some Code.MissingContentType ∧
    MeilisearchHttpError.error_code (MeilisearchHttpError.MissingContentType accepted) ≠
      some Code.InvalidContentType ∧
    MeilisearchHttpError.error_code (MeilisearchHttpError.InvalidContentType ct accepted) =
      some Code.InvalidContentType :=
  ⟨rfl, rfl, by simp [MeilisearchHttpError.error_code], rfl⟩

/-- C7: every blob-store error and every asynchronous task-join failure maps
to `Code.Internal`, regardless of the wrapped value. -/
theorem C7_store_and_join_internal (f : FileStoreError) (j : JoinError) :
    MeilisearchHttpError.error_code (MeilisearchHttpError.FileStore f) =
      some Code.Internal ∧
    MeilisearchHttpError.error_code (MeilisearchHttpError.Join j) = some Code.Internal :=
  ⟨rfl, rfl⟩

/-- C8: the code mapping is a pure, deterministic function of the error
value's structure: two invocations on structurally identical top-level
errors return identical results. -/
theorem C8_error_code_deterministic (e₁ e₂ : MeilisearchHttpError) (h : e₁ = e₂) :
    MeilisearchHttpError.error_code e₁ = MeilisearchHttpError.error_code e₂ := by
  rw [h]

/-- C8 witness: two structurally identical concrete errors map to the same
code. -/
theorem C8_witness :
    MeilisearchHttpError.MissingContentType ["application/json"] =
      MeilisearchHttpError.MissingContentType ["application/json"] ∧
    MeilisearchHttpError.error_code
        (MeilisearchHttpError.MissingContentType ["application/json"]) =
      MeilisearchHttpError.error_code
        (MeilisearchHttpError.MissingContentType ["application/json"]) :=
  ⟨rfl,
    C8_error_code_deterministic
      (MeilisearchHttpError.MissingContentType ["application/json"])
      (MeilisearchHttpError.MissingContentType ["application/json"]) rfl⟩

/-- C9: the conversion from a transport-layer body error and the conversion
from a query-string error are direct lossless wraps: they always produce the
corresponding transport/query constructor carrying the original leaf value
unchanged, and never `MissingPayload` or `MalformedPayload`. -/
theorem C9_direct_lossless_wraps (e : AwebPayloadError) (q : QueryPayloadError) :
    MeilisearchHttpError.fromAwebPayload e =
      MeilisearchHttpError.Payload (PayloadError.Payload e) ∧
    MeilisearchHttpError.fromAwebPayload e ≠
      MeilisearchHttpError.Payload PayloadError.MissingPayload ∧
    (∀ s : SerdeJsonError,
      MeilisearchHttpError.fromAwebPayload e ≠
        MeilisearchHttpError.Payload (PayloadError.MalformedPayload s)) ∧
    PayloadError.fromQuery q = PayloadError.Query q ∧
    PayloadError.fromQuery q ≠ PayloadError.MissingPayload ∧
    (∀ s : SerdeJsonError, PayloadError.fromQuery q ≠ PayloadError.MalformedPayload s) := by
  refine ⟨rfl, ?_, ?_, rfl, ?_, ?_⟩ <;>
    simp [MeilisearchHttpError.fromAwebPayload, PayloadError.fromQuery]

/-- C10: construction invariant — a `PayloadError` obtained by converting a
structured-body error is the generic `Json (Deserialize e)` shape only when
the category of `e` is data-shape; eof and syntax failures are always
diverted to `MissingPayload` or `MalformedPayload` first. -/
theorem C10_json_deserialize_arm_only_data (j : JsonPayloadError) (e : SerdeJsonError)
    (h : PayloadError.fromJson j = PayloadError.Json (JsonPayloadError.Deserialize e)) :
    e.classify = Category.dataFault := by
  cases j with
  | Deserialize e₀ =>
    simp only [PayloadError.fromJson] at h
    by_cases h₁ : e₀.classify = Category.eofFault ∧ e₀.line = 1 ∧ e₀.column = 0
    · rw [if_pos h₁] at h
      exact absurd h (by simp)
    · rw [if_neg h₁] at h
      by_cases h₂ : e₀.classify ≠ Category.dataFault
      · rw [if_pos h₂] at h
        exact absurd h (by simp)
      · rw [if_neg h₂] at h
        simp only [PayloadError.Json.injEq, JsonPayloadError.Deserialize.injEq] at h
        rw [← h]
        exact not_not.mp h₂
  | Overflow limit => exact absurd h (by simp [PayloadError.fromJson])
  | ContentType => exact absurd h (by simp [PayloadError.fromJson])
  | Payload p => exact absurd h (by simp [PayloadError.fromJson])
  | Serialize s => exact absurd h (by simp [PayloadError.fromJson])

/-- C10 witness: a data-shape failure at (1, 5) concretely reaches the
generic `Json (Deserialize _)` wrap, and its category is data-shape. -/
theorem C10_witness :
    PayloadError.fromJson (JsonPayloadError.Deserialize ⟨Category.dataFault, 1, 5⟩) =
      PayloadError.Json (JsonPayloadError.Deserialize ⟨Category.dataFault, 1, 5⟩) ∧
    SerdeJsonError.classify ⟨Category.dataFault, 1, 5⟩ = Category.dataFault :=
  ⟨by decide,
    C10_json_deserialize_arm_only_data
      (JsonPayloadError.Deserialize ⟨Category.dataFault, 1, 5⟩)
      ⟨Category.dataFault, 1, 5⟩ (by decide)⟩

end MeiliHttp
